import Mathlib

/-!
Verification development for `micro-api-gateway-middleware`.

The middleware (src/index.js) verifies that an HTTP request was forwarded by a
trusted API gateway: it acquires a public key (static or fetched-and-cached),
builds a canonical string `METHOD:::URL:::<stable-json of selected headers>`,
hashes it, checks a freshness window on a signature-time header, compares the
hash with the hash header, and verifies an RSA signature over the hash.

The shallow embedding below mirrors src/index.js (the current, whitelist
variant).  External collaborators are modelled explicitly:
  * `fetch` results arrive as a `FetchOutcome` oracle value;
  * the crypto hash (`crypto.createHash('SHA256')....digest('base64')`) is an
    arbitrary function parameter `hashFn : String → String`;
  * `crypto.createVerify('RSA-SHA256')....verify(...)` is an oracle
    `verify : key → data → sig → VerifyOutcome` which may throw (`jsThrow`),
    since Node's verify throws on, e.g., malformed key material;
  * JavaScript truthiness on strings and `parseInt`/NaN comparison semantics
    are modelled by `jsTruthyOpt`, `jsParseInt` and `time_delta_exceeds`
    (in JS every comparison with NaN is false).
Response mutation (`statusCode`, `setHeader`, `end`) is explicit state passing
on a `Response` record; an exception escaping the middleware to the host
framework is the `CallResult.thrown` outcome.
-/

/-- JavaScript truthiness of a string value: the empty string is falsy. -/
def jsTruthyStr (s : String) : Bool := !(s == "")

/-- JavaScript truthiness of a possibly-missing string (`null`/`undefined` are falsy). -/
def jsTruthyOpt : Option String → Bool
  | none => false
  | some s => jsTruthyStr s

/-- `request.headers[name]`: Node header maps are string-valued; a missing
header reads as `undefined`, modelled by `none`. -/
def lookupHeader (headers : List (String × String)) (name : String) : Option String :=
  (headers.find? (fun p => p.1 == name)).map (fun p => p.2)

/-- JavaScript object property assignment `obj[key] = value` on a string-valued
object kept as an insertion-ordered association list: an existing key is
overwritten in place, a new key is appended. -/
def objInsert (obj : List (String × String)) (key value : String) : List (String × String) :=
  if obj.any (fun p => p.1 == key) then
    obj.map (fun p => if p.1 == key then (key, value) else p)
  else obj ++ [(key, value)]

/-- Value of a list of decimal digit characters. -/
def digitsToNat (cs : List Char) : Nat :=
  cs.foldl (fun acc c => acc * 10 + (c.toNat - 48)) 0

/-- JavaScript `parseInt` on a string (radix 10 path): skip leading
whitespace, optional sign, then the maximal run of leading decimal digits;
no digits means NaN, modelled as `none`. -/
def jsParseIntChars (cs0 : List Char) : Option Int :=
  let cs1 := cs0.dropWhile (fun c => c.isWhitespace)
  let signed : Bool × List Char :=
    match cs1 with
    | '-' :: rest => (true, rest)
    | '+' :: rest => (false, rest)
    | _ => (false, cs1)
  let ds := signed.2.takeWhile (fun c => c.isDigit)
  if ds.isEmpty then none
  else if signed.1 then some (-(digitsToNat ds : Int))
  else some (digitsToNat ds : Int)

/-- `parseInt(request.headers[...])`: an absent header is `parseInt(undefined)`,
which is NaN (`none`). -/
def jsParseInt : Option String → Option Int
  | none => none
  | some s => jsParseIntChars s.toList

/-- Lowercase hexadecimal digit, as used by `JSON.stringify` escapes. -/
def hexDigitChar (n : Nat) : Char :=
  if n < 10 then Char.ofNat (48 + n) else Char.ofNat (87 + n)

/-- `JSON.stringify` escaping of a single character inside a string literal. -/
def jsonEscapeChar (c : Char) : String :=
  if c = '\x22' then "\\\x22"
  else if c = '\\' then "\\\\"
  else if c = '\x08' then "\\b"
  else if c = '\x09' then "\\t"
  else if c = '\x0a' then "\\n"
  else if c = '\x0c' then "\\f"
  else if c = '\x0d' then "\\r"
  else if c.toNat < 32 then
    "\\u00" ++ String.singleton (hexDigitChar (c.toNat / 16)) ++
      String.singleton (hexDigitChar (c.toNat % 16))
  else String.singleton c

/-- `JSON.stringify` of a string: quoted, with escapes. -/
def jsonQuote (s : String) : String :=
  "\x22" ++ String.join (s.toList.map jsonEscapeChar) ++ "\x22"

/-- Insert a pair into a list sorted by key (code-unit ascending, as the
default JavaScript array sort used by `json-stable-stringify` orders keys). -/
def lexLe : List Char → List Char → Bool
  | [], _ => true
  | _ :: _, [] => false
  | a :: as, b :: bs =>
    if a.toNat < b.toNat then true
    else if b.toNat < a.toNat then false
    else lexLe as bs

/-- Key comparison for stable stringification. -/
def keyLe (a b : String) : Bool := lexLe a.toList b.toList

/-- Sorted insertion for key/value pairs. -/
def insertPairSorted (p : String × String) :
    List (String × String) → List (String × String)
  | [] => [p]
  | q :: rest => if keyLe p.1 q.1 then p :: q :: rest else q :: insertPairSorted p rest

/-- Sort key/value pairs by key, as `json-stable-stringify` does before
serializing an object. -/
def sortPairsByKey : List (String × String) → List (String × String)
  | [] => []
  | p :: rest => insertPairSorted p (sortPairsByKey rest)

/-- `json_stable_stringify` on a string-valued object: keys sorted, no
whitespace, JSON escaping; the empty object serializes to `\x7b\x7d`. -/
def jsonStableStringify (obj : List (String × String)) : String :=
  "\x7b" ++
    String.intercalate ","
      ((sortPairsByKey obj).map (fun p => jsonQuote p.1 ++ ":" ++ jsonQuote p.2)) ++
  "\x7d"

/-- Default header-name bindings from the options object in src/index.js. -/
structure HeaderNames where
  time : String := "x-micro-api-gateway-signature-time"
  hash : String := "x-micro-api-gateway-request-hash"
  signature : String := "x-micro-api-gateway-signature"
deriving DecidableEq, Repr

/-- The defaulted options object of src/index.js (`Object.assign` of the
defaults with the caller's `_options`). -/
structure Options where
  headers : HeaderNames := {}
  headers_to_verify : List String := []
  public_key_endpoint : Option String := none
  public_key : Option String := none
  grace_period : Int := 1000 * 60 * 5
deriving DecidableEq, Repr

/-- Read-only view of the incoming request: method, URL, header map. -/
structure Request where
  method : String
  url : String
  headers : List (String × String)
deriving DecidableEq, Repr

/-- The response sink: settable status code (Node defaults it to 200),
settable headers, and a terminal `end(body)` write. -/
structure Response where
  statusCode : Nat := 200
  headers : List (String × String) := []
  body : Option String := none
  ended : Bool := false
deriving DecidableEq, Repr

/-- `response.setHeader(name, value)`. -/
def setHeader (resp : Response) (name value : String) : Response :=
  { resp with headers := objInsert resp.headers name value }

/-- `response.end(body)`. -/
def endWith (resp : Response) (b : String) : Response :=
  { resp with body := some b, ended := true }

/-- `JSON.stringify(\x7b error, message \x7d)` exactly as the middleware builds
its failure bodies (insertion order: `error` then `message`). -/
def jsonErrorBody (error message : String) : String :=
  "\x7b\x22error\x22:" ++ jsonQuote error ++ ",\x22message\x22:" ++ jsonQuote message ++ "\x7d"

/-- The failure-response pattern repeated at every gate of src/index.js:
set the status, set `content-type: application/json`, end with the JSON body. -/
def failWrite (resp : Response) (status : Nat) (error message : String) : Response :=
  endWith (setHeader { resp with statusCode := status } "content-type" "application/json")
    (jsonErrorBody error message)

/-- The error kinds and messages written by src/index.js. -/
def err_missing_public_key : String := "missing public key"

/-- Message accompanying `missing public key`. -/
def msg_missing_public_key : String := "Could not obtain public key from provided endpoint."

/-- Error kind for an absent/non-string hash header. -/
def err_missing_hash : String := "missing or malformed request hash"

/-- Message accompanying the missing-hash error. -/
def msg_missing_hash : String := "The request does not have a proper request hash header."

/-- Error kind for an absent/non-string signature header. -/
def err_missing_sig : String := "missing or malformed request hash signature"

/-- Message accompanying the missing-signature error. -/
def msg_missing_sig : String := "The request does not have a proper request hash signature header."

/-- Error kind for a stale signature time. -/
def err_expired : String := "expired request"

/-- Message accompanying the expired error. -/
def msg_expired : String := "The request from the API gateway has expired."

/-- Error kind for a hash mismatch. -/
def err_invalid_hash : String := "invalid request hash"

/-- Message accompanying the hash-mismatch error. -/
def msg_invalid_hash : String := "The request from the API gateway has an invalid request hash."

/-- Error kind for a failed signature verification. -/
def err_invalid_sig : String := "invalid request hash signature"

/-- Message accompanying the invalid-signature error. -/
def msg_invalid_sig : String := "The request hash from the API gateway could not be verified."

/-- Outcome of one `fetch(options.public_key_endpoint)` call:
a success (`.ok` with the body text), a non-success HTTP response, or a
thrown network/transport exception. -/
inductive FetchOutcome where
  | text (body : String)
  | httpError (status : Nat)
  | jsThrow
deriving DecidableEq, Repr

/-- The key provider's module-level mutable state:
`fetched_public_key` and `last_public_key_update` (initially `null` / `0`). -/
structure KeyState where
  fetched_public_key : Option String := none
  last_public_key_update : Int := 0
deriving DecidableEq, Repr

/-- `get_public_key` from src/index.js.  Returns the key (or `null`), the new
cache state, and whether a network fetch was attempted.  A configured static
key short-circuits.  Otherwise: on a cache miss (`!fetched_public_key`, i.e.
falsy) or an expired cache (`time_since_last_public_key_update >
grace_period`), the cache is first nulled, then the fetch outcome fills it —
a non-ok response or a thrown exception leaves it `null` (the exception is
caught) — and `last_public_key_update` is advanced only when the fetched key
is truthy. -/
def get_public_key (opts : Options) (st : KeyState) (now : Int) (fetch : FetchOutcome) :
    Option String × KeyState × Bool :=
  if jsTruthyOpt opts.public_key then (opts.public_key, st, false)
  else
    let time_since_last_public_key_update := now - st.last_public_key_update
    if !(jsTruthyOpt st.fetched_public_key) ||
        decide (time_since_last_public_key_update > opts.grace_period) then
      let fetched_public_key : Option String :=
        match fetch with
        | FetchOutcome.text body => some body
        | FetchOutcome.httpError _ => none
        | FetchOutcome.jsThrow => none
      let st2 : KeyState :=
        { fetched_public_key := fetched_public_key,
          last_public_key_update :=
            if jsTruthyOpt fetched_public_key then now else st.last_public_key_update }
      (fetched_public_key, st2, true)
    else (st.fetched_public_key, st, false)

/-- Outcome of `crypto.createVerify('RSA-SHA256')....verify(...)`: a boolean,
or a thrown exception (Node's verify throws on malformed key material). -/
inductive VerifyOutcome where
  | result (b : Bool)
  | jsThrow
deriving DecidableEq, Repr

/-- What one middleware invocation hands back to the host framework:
a returned boolean, or an uncaught exception propagating out. -/
inductive CallResult where
  | ret (b : Bool)
  | thrown
deriving DecidableEq, Repr

/-- Full observable outcome of one middleware invocation. -/
structure MwOutcome where
  result : CallResult
  response : Response
  keyState : KeyState
  fetch_attempted : Bool
deriving DecidableEq, Repr

/-- The whitelist `reduce` of src/index.js: build an object holding, for each
configured header name that is present on the request, that header's value. -/
def headers_to_verify_object (whitelist : List String)
    (reqHeaders : List (String × String)) : List (String × String) :=
  whitelist.foldl
    (fun acc name =>
      match lookupHeader reqHeaders name with
      | some v => objInsert acc name v
      | none => acc)
    []

/-- `request_as_string` from src/index.js:
`[method, url, json_stable_stringify(headers_to_verify)].join(':::')`. -/
def request_as_string (opts : Options) (request : Request) : String :=
  request.method ++ ":::" ++ request.url ++ ":::" ++
    jsonStableStringify (headers_to_verify_object opts.headers_to_verify request.headers)

/-- The freshness comparison `time_delta > grace_period` where
`time_delta = now - parseInt(timeHeader)`.  When `parseInt` yields NaN
(absent or non-numeric header) the JavaScript comparison is false. -/
def time_delta_exceeds (grace_period now : Int) (parsed_time : Option Int) : Bool :=
  match parsed_time with
  | none => false
  | some t => decide (now - t > grace_period)

/-- The final gate of src/index.js: run the signature verification; a thrown
library exception propagates (there is no try/catch around `verify`), `false`
writes the invalid-signature failure, `true` returns success untouched. -/
def signature_block (verify : String → String → String → VerifyOutcome)
    (public_key request_hash incoming_sig : String)
    (resp : Response) (st : KeyState) (att : Bool) : MwOutcome :=
  match verify public_key request_hash incoming_sig with
  | VerifyOutcome.jsThrow => ⟨CallResult.thrown, resp, st, att⟩
  | VerifyOutcome.result true => ⟨CallResult.ret true, resp, st, att⟩
  | VerifyOutcome.result false =>
    ⟨CallResult.ret false, failWrite resp 400 err_invalid_sig msg_invalid_sig, st, att⟩

/-- The hash-comparison gate of src/index.js:
`request_hash !== incoming_request_hash` writes the invalid-hash failure,
otherwise control proceeds to the signature gate. -/
def hash_match_block (verify : String → String → String → VerifyOutcome)
    (public_key request_hash incoming_hash incoming_sig : String)
    (resp : Response) (st : KeyState) (att : Bool) : MwOutcome :=
  if request_hash == incoming_hash then
    signature_block verify public_key request_hash incoming_sig resp st att
  else
    ⟨CallResult.ret false, failWrite resp 400 err_invalid_hash msg_invalid_hash, st, att⟩

/-- The freshness gate of src/index.js: an exceeded delta writes the expired
failure, otherwise control proceeds to the hash gate. -/
def freshness_block (grace_period now : Int) (parsed_time : Option Int)
    (verify : String → String → String → VerifyOutcome)
    (public_key request_hash incoming_hash incoming_sig : String)
    (resp : Response) (st : KeyState) (att : Bool) : MwOutcome :=
  if time_delta_exceeds grace_period now parsed_time then
    ⟨CallResult.ret false, failWrite resp 400 err_expired msg_expired, st, att⟩
  else
    hash_match_block verify public_key request_hash incoming_hash incoming_sig resp st att

/-- The middleware function returned by src/index.js, one invocation.
`skip` is the truthiness of `process.env.SKIP_GATEWAY_VERIFICATION`;
`hashFn` the SHA-256/base64 digest; `verify` the RSA verification oracle;
`st`/`now`/`fetch` supply the cache state, clock and network outcome.
Gates in source order: bypass, key acquisition, hash-header presence,
signature-header presence, canonicalization + hashing, freshness, hash
comparison, signature verification. -/
def middleware (opts : Options) (skip : Bool) (hashFn : String → String)
    (verify : String → String → String → VerifyOutcome) (st : KeyState) (now : Int)
    (fetch : FetchOutcome) (request : Request) (response : Response) : MwOutcome :=
  if skip then ⟨CallResult.ret true, response, st, false⟩
  else
    let gk := get_public_key opts st now fetch
    let st1 := gk.2.1
    let att := gk.2.2
    if !(jsTruthyOpt gk.1) then
      ⟨CallResult.ret false,
        failWrite response 500 err_missing_public_key msg_missing_public_key, st1, att⟩
    else
      match lookupHeader request.headers opts.headers.hash with
      | none =>
        ⟨CallResult.ret false, failWrite response 400 err_missing_hash msg_missing_hash, st1, att⟩
      | some incoming_request_hash =>
        match lookupHeader request.headers opts.headers.signature with
        | none =>
          ⟨CallResult.ret false, failWrite response 400 err_missing_sig msg_missing_sig, st1, att⟩
        | some incoming_request_hash_signature =>
          let request_hash := hashFn (request_as_string opts request)
          freshness_block opts.grace_period now
            (jsParseInt (lookupHeader request.headers opts.headers.time))
            verify (gk.1.getD "") request_hash incoming_request_hash
            incoming_request_hash_signature response st1 att

/-- A fetch outcome that the key provider treats as a failure: a non-success
HTTP response or a thrown network/transport exception (a successful response
body, even an empty one, is not a fetch failure). -/
def fetchFailed : FetchOutcome → Bool
  | FetchOutcome.text _ => false
  | FetchOutcome.httpError _ => true
  | FetchOutcome.jsThrow => true

/-! ### Helper lemmas -/

theorem jsTruthyOpt_none : jsTruthyOpt none = false := rfl

theorem jsTruthyOpt_some (s : String) : jsTruthyOpt (some s) = jsTruthyStr s := rfl

theorem lookupHeader_cons (p : String × String) (l : List (String × String)) (n : String) :
    lookupHeader (p :: l) n = if p.1 == n then some p.2 else lookupHeader l n := by
  simp only [lookupHeader, List.find?_cons]
  cases h : p.1 == n <;> simp [h]

theorem lookup_eq_of_perm_nodup {l1 l2 : List (String × String)} (hperm : l1.Perm l2) :
    (l1.map Prod.fst).Nodup → ∀ n, lookupHeader l1 n = lookupHeader l2 n := by
  induction hperm with
  | nil => intro _ n; rfl
  | cons x hp ih =>
    intro hnd n
    have hnd2 : _ := (List.nodup_cons.mp hnd).2
    rw [lookupHeader_cons, lookupHeader_cons, ih hnd2 n]
  | swap x y l =>
    intro hnd n
    rw [lookupHeader_cons, lookupHeader_cons, lookupHeader_cons, lookupHeader_cons]
    cases hx : x.1 == n <;> cases hy : y.1 == n
    · simp [hx, hy]
    · simp [hx, hy]
    · simp [hx, hy]
    · exfalso
      have hyx : y.1 = x.1 := by rw [eq_of_beq hy, eq_of_beq hx]
      exact (List.nodup_cons.mp hnd).1 (hyx ▸ List.mem_cons_self x.1 (List.map Prod.fst l))
  | trans hp1 hp2 ih1 ih2 =>
    intro hnd n
    rw [ih1 hnd n, ih2 ((hp1.map Prod.fst).nodup hnd) n]

/-! ### Claims -/

/-- C5: if bypass is enabled (`SKIP_GATEWAY_VERIFICATION` truthy), verification
returns true immediately, with the response, the key-cache state and the
network untouched, and the outcome is the same for every key configuration,
fetch oracle, hash function and verification oracle — i.e. none of the
KeyProvider, Canonicalizer or SignatureVerifier is consulted and no failure
response is written. -/
theorem C5_bypass_returns_true_without_side_effects (opts : Options)
    (hashFn : String → String) (verify : String → String → String → VerifyOutcome)
    (st : KeyState) (now : Int) (fetch : FetchOutcome) (request : Request)
    (response : Response) :
    middleware opts true hashFn verify st now fetch request response =
      ⟨CallResult.ret true, response, st, false⟩ := by
  simp [middleware]

/-- C10: with the default configuration (`headers_to_verify = []`) the
canonical string is exactly `METHOD:::URL:::\x7b\x7d` for every request,
whatever headers it carries. -/
theorem C10_default_whitelist_covers_only_method_and_url (opts : Options)
    (request : Request) (hwl : opts.headers_to_verify = []) :
    request_as_string opts request =
      request.method ++ ":::" ++ request.url ++ ":::" ++ "\x7b\x7d" := by
  unfold request_as_string
  rw [hwl]
  have hempty : jsonStableStringify (headers_to_verify_object [] request.headers) =
      "\x7b\x7d" := rfl
  rw [hempty]

/-- Witness for C10 at a concrete request that carries a header: the header
does not enter the canonical string. -/
theorem C10_witness :
    request_as_string {} ⟨"GET", "/orders", [("x-my-special-header", "v")]⟩ =
      "GET:::/orders:::\x7b\x7d" :=
  C10_default_whitelist_covers_only_method_and_url {}
    ⟨"GET", "/orders", [("x-my-special-header", "v")]⟩ rfl

/-- C8: canonicalization is order-independent — two requests with the same
method and URL whose header maps hold identical key/value pairs in different
insertion order (a permutation, with no duplicate header names) produce
byte-identical canonical strings, and hence equal digests under any hash
function. -/
theorem C8_canonicalization_order_independent (opts : Options) (m u : String)
    (hashFn : String → String) (h1 h2 : List (String × String))
    (hperm : h1.Perm h2) (hnd : (h1.map Prod.fst).Nodup) :
    request_as_string opts ⟨m, u, h1⟩ = request_as_string opts ⟨m, u, h2⟩ ∧
      hashFn (request_as_string opts ⟨m, u, h1⟩) =
        hashFn (request_as_string opts ⟨m, u, h2⟩) := by
  have hl : ∀ n, lookupHeader h1 n = lookupHeader h2 n :=
    lookup_eq_of_perm_nodup hperm hnd
  have hobj : headers_to_verify_object opts.headers_to_verify h1 =
      headers_to_verify_object opts.headers_to_verify h2 := by
    unfold headers_to_verify_object
    congr 1
    funext acc name
    rw [hl name]
  have hs : request_as_string opts ⟨m, u, h1⟩ = request_as_string opts ⟨m, u, h2⟩ := by
    simp [request_as_string, hobj]
  exact ⟨hs, congrArg hashFn hs⟩

/-- Witness for C8 at concrete permuted header maps under the whitelist
`["a", "b"]`. -/
theorem C8_witness :
    request_as_string { headers_to_verify := ["a", "b"] }
        ⟨"GET", "/x", [("a", "1"), ("b", "2")]⟩ =
      request_as_string { headers_to_verify := ["a", "b"] }
        ⟨"GET", "/x", [("b", "2"), ("a", "1")]⟩ :=
  (C8_canonicalization_order_independent { headers_to_verify := ["a", "b"] }
    "GET" "/x" (fun s => s) [("a", "1"), ("b", "2")] [("b", "2"), ("a", "1")]
    (by decide) (by decide)).1

/-- C1 counterexample: the claim says no runtime failure, including a
signature-verification-library exception, ever propagates to the host
framework.  But src/index.js has no try/catch around
`crypto.createVerify(...).verify(...)`; at this concrete request (static key,
headers present, fresh timestamp, matching hash) an exception thrown by the
verification library escapes the middleware call (`CallResult.thrown`)
instead of being translated into a JSON response with a boolean return. -/
theorem C1_counterexample :
    (middleware { public_key := some "K" } false (fun s => s)
        (fun _ _ _ => VerifyOutcome.jsThrow) {} 1500 FetchOutcome.jsThrow
        ⟨"GET", "/orders",
          [("x-micro-api-gateway-request-hash", "GET:::/orders:::\x7b\x7d"),
           ("x-micro-api-gateway-signature", "S"),
           ("x-micro-api-gateway-signature-time", "1000")]⟩ {}).result =
      CallResult.thrown := by decide

/-- C1 (amended): whenever the signature-verification library itself does not
throw, the middleware always returns a boolean — every other runtime failure,
including key-fetch network/transport exceptions, is caught; in particular a
thrown key fetch is absorbed and translated into the structured 500
`missing public key` JSON response.  (Only a verification-library exception
can escape to the host framework.) -/
theorem C1_no_exception_escape_except_verify (opts : Options) (skip : Bool)
    (hashFn : String → String) (verify : String → String → String → VerifyOutcome)
    (st : KeyState) (now : Int) (fetch : FetchOutcome) (request : Request)
    (response : Response)
    (hnv : ∀ k d s, verify k d s ≠ VerifyOutcome.jsThrow) :
    (∃ b, (middleware opts skip hashFn verify st now fetch request response).result =
      CallResult.ret b) ∧
    (∀ (st2 : KeyState) (now2 : Int) (request2 : Request) (response2 : Response),
      opts.public_key = none → st2.fetched_public_key = none →
      middleware opts false hashFn verify st2 now2 FetchOutcome.jsThrow request2 response2 =
        ⟨CallResult.ret false,
          failWrite response2 500 err_missing_public_key msg_missing_public_key,
          ⟨none, st2.last_public_key_update⟩, true⟩) := by
  constructor
  · have hne : (middleware opts skip hashFn verify st now fetch request response).result ≠
        CallResult.thrown := by
      simp only [middleware, freshness_block, hash_match_block, signature_block]
      cases skip
      · simp only [Bool.false_eq_true, if_false]
        split
        · simp
        · split
          · simp
          · split
            · simp
            · split
              · simp
              · split
                · split
                  · rename_i heq
                    exact absurd heq (hnv _ _ _)
                  · simp
                  · simp
                · simp
      · simp
    rcases hres : (middleware opts skip hashFn verify st now fetch request response).result with b | _
    · exact ⟨b, rfl⟩
    · exact absurd hres hne
  · intro st2 now2 request2 response2 hmr hm2
    simp [middleware, get_public_key, hmr, hm2, jsTruthyOpt_none]

/-- Witness for the amended C1: with a never-throwing verification oracle the
call returns a boolean, and a thrown key fetch produces the 500
`missing public key` response rather than an escaped exception. -/
theorem C1_witness :
    (∃ b, (middleware { public_key_endpoint := some "https://gw/pub.pem" } false
        (fun s => s) (fun _ _ _ => VerifyOutcome.result true) ⟨none, 0⟩ 7
        FetchOutcome.jsThrow ⟨"GET", "/o", []⟩ {}).result = CallResult.ret b) ∧
    middleware { public_key_endpoint := some "https://gw/pub.pem" } false
        (fun s => s) (fun _ _ _ => VerifyOutcome.result true) ⟨none, 3⟩ 7
        FetchOutcome.jsThrow ⟨"GET", "/o", []⟩ {} =
      ⟨CallResult.ret false,
        failWrite {} 500 err_missing_public_key msg_missing_public_key,
        ⟨none, 3⟩, true⟩ :=
  ⟨(C1_no_exception_escape_except_verify { public_key_endpoint := some "https://gw/pub.pem" }
      false (fun s => s) (fun _ _ _ => VerifyOutcome.result true) ⟨none, 0⟩ 7
      FetchOutcome.jsThrow ⟨"GET", "/o", []⟩ {} (fun _ _ _ h => VerifyOutcome.noConfusion h)).1,
   (C1_no_exception_escape_except_verify { public_key_endpoint := some "https://gw/pub.pem" }
      false (fun s => s) (fun _ _ _ => VerifyOutcome.result true) ⟨none, 0⟩ 7
      FetchOutcome.jsThrow ⟨"GET", "/o", []⟩ {} (fun _ _ _ h => VerifyOutcome.noConfusion h)).2
     ⟨none, 3⟩ 7 ⟨"GET", "/o", []⟩ {} rfl rfl⟩

/-- C2: with a trusted key available and bypass off, a request whose hash
header is absent makes verification return false, write status 400 and the
error kind `missing or malformed request hash`. -/
theorem C2_missing_hash_header (opts : Options) (hashFn : String → String)
    (verify : String → String → String → VerifyOutcome) (st : KeyState) (now : Int)
    (fetch : FetchOutcome) (request : Request) (response : Response)
    (hkey : jsTruthyOpt (get_public_key opts st now fetch).1 = true)
    (hmiss : lookupHeader request.headers opts.headers.hash = none) :
    middleware opts false hashFn verify st now fetch request response =
      ⟨CallResult.ret false, failWrite response 400 err_missing_hash msg_missing_hash,
        (get_public_key opts st now fetch).2.1, (get_public_key opts st now fetch).2.2⟩ ∧
    (middleware opts false hashFn verify st now fetch request response).response.statusCode = 400 ∧
    (middleware opts false hashFn verify st now fetch request response).response.body =
      some (jsonErrorBody err_missing_hash msg_missing_hash) := by
  have hmw : middleware opts false hashFn verify st now fetch request response =
      ⟨CallResult.ret false, failWrite response 400 err_missing_hash msg_missing_hash,
        (get_public_key opts st now fetch).2.1, (get_public_key opts st now fetch).2.2⟩ := by
    simp only [middleware, hkey, hmiss, Bool.not_true, Bool.false_eq_true, if_false]
  refine ⟨hmw, ?_, ?_⟩ <;> rw [hmw] <;> simp [failWrite, endWith, setHeader]

/-- Witness for C2 at a concrete static-key configuration and a request with
no hash header. -/
theorem C2_witness :
    middleware { public_key := some "K" } false (fun s => s)
        (fun _ _ _ => VerifyOutcome.result true) ⟨none, 0⟩ 0 FetchOutcome.jsThrow
        ⟨"GET", "/orders", []⟩ {} =
      ⟨CallResult.ret false, failWrite {} 400 err_missing_hash msg_missing_hash,
        (get_public_key { public_key := some "K" } ⟨none, 0⟩ 0 FetchOutcome.jsThrow).2.1,
        (get_public_key { public_key := some "K" } ⟨none, 0⟩ 0 FetchOutcome.jsThrow).2.2⟩ :=
  (C2_missing_hash_header { public_key := some "K" } (fun s => s)
    (fun _ _ _ => VerifyOutcome.result true) ⟨none, 0⟩ 0 FetchOutcome.jsThrow
    ⟨"GET", "/orders", []⟩ {} (by decide) (by decide)).1

/-- C3: with the signing time parsing to `T`, a delta of exactly the grace
period passes the freshness gate — the middleware outcome is that of the next
gate (the hash comparison) — while a delta of grace period + 1 is rejected
with status 400 and error kind `expired request`. -/
theorem C3_freshness_boundary (opts : Options) (hashFn : String → String)
    (verify : String → String → String → VerifyOutcome) (st : KeyState) (now : Int)
    (fetch : FetchOutcome) (request : Request) (response : Response)
    (H S : String) (T : Int)
    (hkey : jsTruthyOpt (get_public_key opts st now fetch).1 = true)
    (hhash : lookupHeader request.headers opts.headers.hash = some H)
    (hsig : lookupHeader request.headers opts.headers.signature = some S)
    (htime : jsParseInt (lookupHeader request.headers opts.headers.time) = some T) :
    (now - T = opts.grace_period →
      middleware opts false hashFn verify st now fetch request response =
        hash_match_block verify ((get_public_key opts st now fetch).1.getD "")
          (hashFn (request_as_string opts request)) H S response
          (get_public_key opts st now fetch).2.1 (get_public_key opts st now fetch).2.2) ∧
    (now - T = opts.grace_period + 1 →
      middleware opts false hashFn verify st now fetch request response =
        ⟨CallResult.ret false, failWrite response 400 err_expired msg_expired,
          (get_public_key opts st now fetch).2.1, (get_public_key opts st now fetch).2.2⟩ ∧
      (middleware opts false hashFn verify st now fetch request response).response.statusCode = 400 ∧
      (middleware opts false hashFn verify st now fetch request response).response.body =
        some (jsonErrorBody err_expired msg_expired)) := by
  constructor
  · intro hd
    have hnx : time_delta_exceeds opts.grace_period now (some T) = false := by
      simp [time_delta_exceeds]
      omega
    simp only [middleware, hkey, hhash, hsig, htime, Bool.not_true, Bool.false_eq_true,
      if_false, freshness_block, hnx]
  · intro hd
    have hx : time_delta_exceeds opts.grace_period now (some T) = true := by
      simp [time_delta_exceeds]
      omega
    have hmw : middleware opts false hashFn verify st now fetch request response =
        ⟨CallResult.ret false, failWrite response 400 err_expired msg_expired,
          (get_public_key opts st now fetch).2.1, (get_public_key opts st now fetch).2.2⟩ := by
      simp only [middleware, hkey, hhash, hsig, htime, Bool.not_true, Bool.false_eq_true,
        if_false, freshness_block, hx, if_true]
    refine ⟨hmw, ?_, ?_⟩ <;> rw [hmw] <;> simp [failWrite, endWith, setHeader]

/-- Witness for C3: grace period 300, signing time 0; at `now = 300` the
freshness gate passes to the hash gate, at `now = 301` the request is
rejected as expired. -/
theorem C3_witness :
    (middleware { public_key := some "K", grace_period := 300 } false (fun s => s)
        (fun _ _ _ => VerifyOutcome.result true) ⟨none, 0⟩ 300 FetchOutcome.jsThrow
        ⟨"GET", "/x",
          [("x-micro-api-gateway-request-hash", "H"),
           ("x-micro-api-gateway-signature", "S"),
           ("x-micro-api-gateway-signature-time", "0")]⟩ {} =
      hash_match_block (fun _ _ _ => VerifyOutcome.result true)
        ((get_public_key { public_key := some "K", grace_period := 300 } ⟨none, 0⟩ 300
          FetchOutcome.jsThrow).1.getD "")
        ((fun s => s) (request_as_string { public_key := some "K", grace_period := 300 }
          ⟨"GET", "/x",
            [("x-micro-api-gateway-request-hash", "H"),
             ("x-micro-api-gateway-signature", "S"),
             ("x-micro-api-gateway-signature-time", "0")]⟩)) "H" "S" {}
        (get_public_key { public_key := some "K", grace_period := 300 } ⟨none, 0⟩ 300
          FetchOutcome.jsThrow).2.1
        (get_public_key { public_key := some "K", grace_period := 300 } ⟨none, 0⟩ 300
          FetchOutcome.jsThrow).2.2) ∧
    middleware { public_key := some "K", grace_period := 300 } false (fun s => s)
        (fun _ _ _ => VerifyOutcome.result true) ⟨none, 0⟩ 301 FetchOutcome.jsThrow
        ⟨"GET", "/x",
          [("x-micro-api-gateway-request-hash", "H"),
           ("x-micro-api-gateway-signature", "S"),
           ("x-micro-api-gateway-signature-time", "0")]⟩ {} =
      ⟨CallResult.ret false, failWrite {} 400 err_expired msg_expired,
        (get_public_key { public_key := some "K", grace_period := 300 } ⟨none, 0⟩ 301
          FetchOutcome.jsThrow).2.1,
        (get_public_key { public_key := some "K", grace_period := 300 } ⟨none, 0⟩ 301
          FetchOutcome.jsThrow).2.2⟩ :=
  ⟨(C3_freshness_boundary { public_key := some "K", grace_period := 300 } (fun s => s)
      (fun _ _ _ => VerifyOutcome.result true) ⟨none, 0⟩ 300 FetchOutcome.jsThrow
      ⟨"GET", "/x",
        [("x-micro-api-gateway-request-hash", "H"),
         ("x-micro-api-gateway-signature", "S"),
         ("x-micro-api-gateway-signature-time", "0")]⟩ {} "H" "S" 0
      (by decide) (by decide) (by decide) (by decide)).1 (by decide),
   ((C3_freshness_boundary { public_key := some "K", grace_period := 300 } (fun s => s)
      (fun _ _ _ => VerifyOutcome.result true) ⟨none, 0⟩ 301 FetchOutcome.jsThrow
      ⟨"GET", "/x",
        [("x-micro-api-gateway-request-hash", "H"),
         ("x-micro-api-gateway-signature", "S"),
         ("x-micro-api-gateway-signature-time", "0")]⟩ {} "H" "S" 0
      (by decide) (by decide) (by decide) (by decide)).2 (by decide)).1⟩

/-- C4: remote-endpoint key source.  (1) A successful fetch of a (truthy) key
into an empty cache stores the key with the fetch time.  (2) Any later call
whose elapsed time since that fetch is within the grace period returns the
cached key with no network call, whatever the network would have answered.
(3) A failed fetch (non-success response or thrown exception) leaves the
cache cleared and returns no key.  (4) With a cleared cache the very next
call attempts a fetch, at any time.  (5) A call that does not fetch only ever
returns the cached key, and only when its age is within the grace period —
no stale key is returned past its TTL. -/
theorem C4_key_cache_policy (opts : Options) (hremote : opts.public_key = none) :
    (∀ (t0 now : Int) (k : String), jsTruthyStr k = true →
      get_public_key opts ⟨none, t0⟩ now (FetchOutcome.text k) =
        (some k, ⟨some k, now⟩, true)) ∧
    (∀ (t0 t : Int) (k : String) (f : FetchOutcome), jsTruthyStr k = true →
      t - t0 ≤ opts.grace_period →
      get_public_key opts ⟨some k, t0⟩ t f = (some k, ⟨some k, t0⟩, false)) ∧
    (∀ (st : KeyState) (now : Int) (f : FetchOutcome), fetchFailed f = true →
      (get_public_key opts st now f).2.2 = true →
      (get_public_key opts st now f).2.1.fetched_public_key = none ∧
      (get_public_key opts st now f).1 = none) ∧
    (∀ (st : KeyState) (now : Int) (f : FetchOutcome), st.fetched_public_key = none →
      (get_public_key opts st now f).2.2 = true) ∧
    (∀ (st : KeyState) (now : Int) (f : FetchOutcome) (k : String),
      (get_public_key opts st now f).2.2 = false →
      (get_public_key opts st now f).1 = some k →
      st.fetched_public_key = some k ∧
      now - st.last_public_key_update ≤ opts.grace_period) := by
  refine ⟨?_, ?_, ?_, ?_, ?_⟩
  · intro t0 now k hk
    simp [get_public_key, hremote, jsTruthyOpt, hk]
  · intro t0 t k f hk hle
    have hng : ¬ (t - t0 > opts.grace_period) := by omega
    simp [get_public_key, hremote, jsTruthyOpt, hk, hng]
  · intro st now f hf hatt
    cases hc : (!(jsTruthyOpt st.fetched_public_key) ||
        decide (now - st.last_public_key_update > opts.grace_period)) with
    | false => simp [get_public_key, hremote, hc, jsTruthyOpt_none] at hatt
    | true =>
      cases f with
      | text b => simp [fetchFailed] at hf
      | httpError s => simp [get_public_key, hremote, hc, jsTruthyOpt_none]
      | jsThrow => simp [get_public_key, hremote, hc, jsTruthyOpt_none]
  · intro st now f hnone
    simp [get_public_key, hremote, hnone, jsTruthyOpt_none]
  · intro st now f k hatt hk
    cases hc : (!(jsTruthyOpt st.fetched_public_key) ||
        decide (now - st.last_public_key_update > opts.grace_period)) with
    | true => simp [get_public_key, hremote, hc, jsTruthyOpt_none] at hatt
    | false =>
      simp [get_public_key, hremote, hc, jsTruthyOpt_none] at hk
      simp only [Bool.or_eq_false_iff, Bool.not_eq_false', decide_eq_false_iff_not] at hc
      exact ⟨hk, by omega⟩

/-- Witness for C4: a fetch at time 100 caches the key; a call at time 200
reuses it without a fetch even though the network would throw; a failed fetch
leaves the cache empty. -/
theorem C4_witness :
    get_public_key { public_key_endpoint := some "https://gw/pub.pem" } ⟨none, 0⟩ 100
        (FetchOutcome.text "K") = (some "K", ⟨some "K", 100⟩, true) ∧
    get_public_key { public_key_endpoint := some "https://gw/pub.pem" } ⟨some "K", 100⟩ 200
        FetchOutcome.jsThrow = (some "K", ⟨some "K", 100⟩, false) ∧
    (get_public_key { public_key_endpoint := some "https://gw/pub.pem" } ⟨none, 0⟩ 400
        (FetchOutcome.httpError 500)).2.1.fetched_public_key = none :=
  ⟨(C4_key_cache_policy { public_key_endpoint := some "https://gw/pub.pem" } rfl).1
      0 100 "K" (by decide),
   (C4_key_cache_policy { public_key_endpoint := some "https://gw/pub.pem" } rfl).2.1
      100 200 "K" FetchOutcome.jsThrow (by decide) (by decide),
   ((C4_key_cache_policy { public_key_endpoint := some "https://gw/pub.pem" } rfl).2.2.1
      ⟨none, 0⟩ 400 (FetchOutcome.httpError 500) (by decide) (by decide)).1⟩

/-- C6: every failed verification writes one of exactly six failure responses,
and the status code is 500 exactly for the error kind `missing public key`
and 400 for every other kind (missing/malformed hash header, missing/
malformed signature header, expired request, hash mismatch, invalid
signature). -/
theorem C6_status_code_table (opts : Options) (skip : Bool) (hashFn : String → String)
    (verify : String → String → String → VerifyOutcome) (st : KeyState) (now : Int)
    (fetch : FetchOutcome) (request : Request) (response : Response)
    (hfail : (middleware opts skip hashFn verify st now fetch request response).result =
      CallResult.ret false) :
    (middleware opts skip hashFn verify st now fetch request response).response =
        failWrite response 500 err_missing_public_key msg_missing_public_key ∨
    (middleware opts skip hashFn verify st now fetch request response).response =
        failWrite response 400 err_missing_hash msg_missing_hash ∨
    (middleware opts skip hashFn verify st now fetch request response).response =
        failWrite response 400 err_missing_sig msg_missing_sig ∨
    (middleware opts skip hashFn verify st now fetch request response).response =
        failWrite response 400 err_expired msg_expired ∨
    (middleware opts skip hashFn verify st now fetch request response).response =
        failWrite response 400 err_invalid_hash msg_invalid_hash ∨
    (middleware opts skip hashFn verify st now fetch request response).response =
        failWrite response 400 err_invalid_sig msg_invalid_sig := by
  revert hfail
  simp only [middleware, freshness_block, hash_match_block, signature_block]
  cases skip
  · simp only [Bool.false_eq_true, if_false]
    split
    · intro _
      left
      rfl
    · split
      · intro _
        right; left
        rfl
      · split
        · intro _
          right; right; left
          rfl
        · split
          · intro _
            right; right; right; left
            rfl
          · split
            · split
              · intro h
                cases h
              · intro h
                cases h
              · intro _
                right; right; right; right; right
                rfl
            · intro _
              right; right; right; right; left
              rfl
  · intro h
    simp at h

/-- Witness for C6 at a concrete failing call (missing hash header): the
written response is the 400 missing-hash one. -/
theorem C6_witness :
    (middleware { public_key := some "K" } false (fun s => s)
        (fun _ _ _ => VerifyOutcome.result true) ⟨none, 0⟩ 0 FetchOutcome.jsThrow
        ⟨"POST", "/orders", []⟩ {}).response =
        failWrite {} 500 err_missing_public_key msg_missing_public_key ∨
    (middleware { public_key := some "K" } false (fun s => s)
        (fun _ _ _ => VerifyOutcome.result true) ⟨none, 0⟩ 0 FetchOutcome.jsThrow
        ⟨"POST", "/orders", []⟩ {}).response =
        failWrite {} 400 err_missing_hash msg_missing_hash ∨
    (middleware { public_key := some "K" } false (fun s => s)
        (fun _ _ _ => VerifyOutcome.result true) ⟨none, 0⟩ 0 FetchOutcome.jsThrow
        ⟨"POST", "/orders", []⟩ {}).response =
        failWrite {} 400 err_missing_sig msg_missing_sig ∨
    (middleware { public_key := some "K" } false (fun s => s)
        (fun _ _ _ => VerifyOutcome.result true) ⟨none, 0⟩ 0 FetchOutcome.jsThrow
        ⟨"POST", "/orders", []⟩ {}).response =
        failWrite {} 400 err_expired msg_expired ∨
    (middleware { public_key := some "K" } false (fun s => s)
        (fun _ _ _ => VerifyOutcome.result true) ⟨none, 0⟩ 0 FetchOutcome.jsThrow
        ⟨"POST", "/orders", []⟩ {}).response =
        failWrite {} 400 err_invalid_hash msg_invalid_hash ∨
    (middleware { public_key := some "K" } false (fun s => s)
        (fun _ _ _ => VerifyOutcome.result true) ⟨none, 0⟩ 0 FetchOutcome.jsThrow
        ⟨"POST", "/orders", []⟩ {}).response =
        failWrite {} 400 err_invalid_sig msg_invalid_sig :=
  C6_status_code_table { public_key := some "K" } false (fun s => s)
    (fun _ _ _ => VerifyOutcome.result true) ⟨none, 0⟩ 0 FetchOutcome.jsThrow
    ⟨"POST", "/orders", []⟩ {} (by decide)

/-- C7: a request carrying a hash header equal to the digest of its canonical
string, a signature the verification oracle accepts, and a signing time with
delta within the grace period (with a trusted key available and bypass off)
verifies to true, and the response object is returned completely unmodified
(no status change, no header set, no body written). -/
theorem C7_valid_request_no_side_effects (opts : Options) (hashFn : String → String)
    (verify : String → String → String → VerifyOutcome) (st : KeyState) (now : Int)
    (fetch : FetchOutcome) (request : Request) (response : Response) (S : String) (T : Int)
    (hkey : jsTruthyOpt (get_public_key opts st now fetch).1 = true)
    (hhash : lookupHeader request.headers opts.headers.hash =
      some (hashFn (request_as_string opts request)))
    (hsig : lookupHeader request.headers opts.headers.signature = some S)
    (htime : jsParseInt (lookupHeader request.headers opts.headers.time) = some T)
    (hdelta : now - T ≤ opts.grace_period)
    (hverify : verify ((get_public_key opts st now fetch).1.getD "")
        (hashFn (request_as_string opts request)) S = VerifyOutcome.result true) :
    middleware opts false hashFn verify st now fetch request response =
      ⟨CallResult.ret true, response, (get_public_key opts st now fetch).2.1,
        (get_public_key opts st now fetch).2.2⟩ := by
  have hnx : time_delta_exceeds opts.grace_period now (some T) = false := by
    simp [time_delta_exceeds]
    omega
  simp only [middleware, hkey, hhash, hsig, htime, Bool.not_true, Bool.false_eq_true, if_false,
    freshness_block, hnx, hash_match_block, beq_self_eq_true, if_true, signature_block, hverify]

/-- Witness for C7: a concrete fully valid request verifies to true with the
response record unchanged. -/
theorem C7_witness :
    middleware { public_key := some "K" } false (fun s => s)
        (fun _ _ _ => VerifyOutcome.result true) ⟨none, 0⟩ 1500 FetchOutcome.jsThrow
        ⟨"GET", "/orders",
          [("x-micro-api-gateway-request-hash", "GET:::/orders:::\x7b\x7d"),
           ("x-micro-api-gateway-signature", "S"),
           ("x-micro-api-gateway-signature-time", "1000")]⟩ {} =
      ⟨CallResult.ret true, {},
        (get_public_key { public_key := some "K" } ⟨none, 0⟩ 1500 FetchOutcome.jsThrow).2.1,
        (get_public_key { public_key := some "K" } ⟨none, 0⟩ 1500 FetchOutcome.jsThrow).2.2⟩ :=
  C7_valid_request_no_side_effects { public_key := some "K" } (fun s => s)
    (fun _ _ _ => VerifyOutcome.result true) ⟨none, 0⟩ 1500 FetchOutcome.jsThrow
    ⟨"GET", "/orders",
      [("x-micro-api-gateway-request-hash", "GET:::/orders:::\x7b\x7d"),
       ("x-micro-api-gateway-signature", "S"),
       ("x-micro-api-gateway-signature-time", "1000")]⟩ {} "S" 1000
    (by decide) (by decide) (by decide) (by decide) (by decide) rfl

/-- C9: when the time header is absent or does not parse to a number,
`parseInt` yields NaN, the JavaScript comparison `delta > grace_period` is
false, and the freshness gate accepts the request: the middleware outcome is
that of the hash gate, and with a matching hash and accepted signature such a
request verifies to true — it is never rejected as expired. -/
theorem C9_nan_time_delta_accepts (opts : Options) (hashFn : String → String)
    (verify : String → String → String → VerifyOutcome) (st : KeyState) (now : Int)
    (fetch : FetchOutcome) (request : Request) (response : Response) (H S : String)
    (hkey : jsTruthyOpt (get_public_key opts st now fetch).1 = true)
    (hhash : lookupHeader request.headers opts.headers.hash = some H)
    (hsig : lookupHeader request.headers opts.headers.signature = some S)
    (htime : jsParseInt (lookupHeader request.headers opts.headers.time) = none) :
    time_delta_exceeds opts.grace_period now
      (jsParseInt (lookupHeader request.headers opts.headers.time)) = false ∧
    middleware opts false hashFn verify st now fetch request response =
      hash_match_block verify ((get_public_key opts st now fetch).1.getD "")
        (hashFn (request_as_string opts request)) H S response
        (get_public_key opts st now fetch).2.1 (get_public_key opts st now fetch).2.2 ∧
    (H = hashFn (request_as_string opts request) →
      verify ((get_public_key opts st now fetch).1.getD "")
          (hashFn (request_as_string opts request)) S = VerifyOutcome.result true →
      middleware opts false hashFn verify st now fetch request response =
        ⟨CallResult.ret true, response, (get_public_key opts st now fetch).2.1,
          (get_public_key opts st now fetch).2.2⟩) := by
  refine ⟨by simp [htime, time_delta_exceeds], ?_, ?_⟩
  · simp only [middleware, hkey, hhash, hsig, htime, Bool.not_true, Bool.false_eq_true, if_false,
      freshness_block, time_delta_exceeds, Bool.false_eq_true, if_false]
  · intro he hv
    subst he
    simp only [middleware, hkey, hhash, hsig, htime, Bool.not_true, Bool.false_eq_true, if_false,
      freshness_block, time_delta_exceeds, hash_match_block, beq_self_eq_true, if_true,
      signature_block, hv]

/-- Witness for C9: a request with no time header at all, at an arbitrarily
late clock value, with valid hash and signature, verifies to true. -/
theorem C9_witness :
    middleware { public_key := some "K" } false (fun s => s)
        (fun _ _ _ => VerifyOutcome.result true) ⟨none, 0⟩ 999999999999
        FetchOutcome.jsThrow
        ⟨"GET", "/orders",
          [("x-micro-api-gateway-request-hash", "GET:::/orders:::\x7b\x7d"),
           ("x-micro-api-gateway-signature", "S")]⟩ {} =
      ⟨CallResult.ret true, {},
        (get_public_key { public_key := some "K" } ⟨none, 0⟩ 999999999999
          FetchOutcome.jsThrow).2.1,
        (get_public_key { public_key := some "K" } ⟨none, 0⟩ 999999999999
          FetchOutcome.jsThrow).2.2⟩ :=
  (C9_nan_time_delta_accepts { public_key := some "K" } (fun s => s)
    (fun _ _ _ => VerifyOutcome.result true) ⟨none, 0⟩ 999999999999 FetchOutcome.jsThrow
    ⟨"GET", "/orders",
      [("x-micro-api-gateway-request-hash", "GET:::/orders:::\x7b\x7d"),
       ("x-micro-api-gateway-signature", "S")]⟩ {} "GET:::/orders:::\x7b\x7d" "S"
    (by decide) (by decide) (by decide) (by decide)).2.2 (by decide) rfl
